import Mathlib

/-!
Verification development for the KudiSMS bulk sender (src/send_kudi_sms.py).

The script's core logic is embedded shallowly:
  - `parse_response` models `parse_response(response_text)` (lines 65-107);
  - `send_single` models `send_single(phone, message)` (lines 110-147), with the
    HTTP transport (`requests.post`) injected as a `RequestOutcome` value;
  - `sendLoop` models the delivery loop of `main` (lines 230-257);
  - `validate_phone_number` models `validate_phone_number(phone)` (lines 150-170).

`json.loads` is modelled by `json_loads`, a small recursive-descent JSON reader
covering objects, arrays, strings (with the common escapes), integer numerals,
`true`/`false`/`null` — the fragment the gateway actually emits.  Python string
operations are modelled over `String.data` character lists: `pyStrip` for
`str.strip`, `pyStartsWith` for `str.startswith`, `pyIsDigit` for `str.isdigit`
(ASCII digits), `removeSpacesDashes` for the two single-character
`str.replace` calls.
-/

/-- Decoded JSON values, as produced by `json.loads`.  Numbers are modelled as
integers (the gateway emits only integral counts and prices). -/
inductive JsonVal : Type where
  | str : String → JsonVal
  | num : Int → JsonVal
  | bool : Bool → JsonVal
  | null : JsonVal
  | arr : List JsonVal → JsonVal
  | obj : List (String × JsonVal) → JsonVal

/-- Skip JSON whitespace. -/
def skipWs : List Char → List Char
  | c :: cs => if c = ' ' ∨ c = '\t' ∨ c = '\n' ∨ c = '\r' then skipWs cs else c :: cs
  | [] => []

/-- Read the characters of a JSON string literal after the opening quote,
returning the decoded characters and the remaining input. -/
def parseStrChars : Nat → List Char → Option (List Char × List Char)
  | 0, _ => none
  | _, [] => none
  | fuel + 1, c :: cs =>
    if c = '"' then some ([], cs)
    else if c = '\\' then
      match cs with
      | [] => none
      | e :: cs2 =>
        let ec : Option Char :=
          if e = '"' then some '"'
          else if e = '\\' then some '\\'
          else if e = '/' then some '/'
          else if e = 'n' then some '\n'
          else if e = 't' then some '\t'
          else if e = 'r' then some '\r'
          else none
        match ec with
        | some ch =>
          match parseStrChars fuel cs2 with
          | some (out, rest) => some (ch :: out, rest)
          | none => none
        | none => none
    else
      match parseStrChars fuel cs with
      | some (out, rest) => some (c :: out, rest)
      | none => none

/-- Read a nonempty run of decimal digits as a natural number. -/
def natFromDigits (cs : List Char) : Option (Nat × List Char) :=
  let ds := cs.takeWhile Char.isDigit
  if ds.isEmpty then none
  else some (ds.foldl (fun acc c => acc * 10 + (c.toNat - 48)) 0, cs.dropWhile Char.isDigit)

mutual

/-- Read one JSON value. -/
def parseVal : Nat → List Char → Option (JsonVal × List Char)
  | 0, _ => none
  | fuel + 1, cs =>
    match skipWs cs with
    | [] => none
    | c :: cs1 =>
      if c = '\x7b' then
        match skipWs cs1 with
        | '\x7d' :: cs2 => some (JsonVal.obj [], cs2)
        | _ =>
          match parseMembers fuel cs1 with
          | some (kvs, rest) =>
            match skipWs rest with
            | '\x7d' :: rest2 => some (JsonVal.obj kvs, rest2)
            | _ => none
          | none => none
      else if c = '[' then
        match skipWs cs1 with
        | ']' :: cs2 => some (JsonVal.arr [], cs2)
        | _ =>
          match parseElems fuel cs1 with
          | some (vs, rest) =>
            match skipWs rest with
            | ']' :: rest2 => some (JsonVal.arr vs, rest2)
            | _ => none
          | none => none
      else if c = '"' then
        match parseStrChars (cs1.length + 1) cs1 with
        | some (out, rest) => some (JsonVal.str (String.mk out), rest)
        | none => none
      else if c = 't' then
        match cs1 with
        | 'r' :: 'u' :: 'e' :: rest => some (JsonVal.bool true, rest)
        | _ => none
      else if c = 'f' then
        match cs1 with
        | 'a' :: 'l' :: 's' :: 'e' :: rest => some (JsonVal.bool false, rest)
        | _ => none
      else if c = 'n' then
        match cs1 with
        | 'u' :: 'l' :: 'l' :: rest => some (JsonVal.null, rest)
        | _ => none
      else if c = '-' then
        match natFromDigits cs1 with
        | some (n, rest) => some (JsonVal.num (-(n : Int)), rest)
        | none => none
      else if c.isDigit then
        match natFromDigits (c :: cs1) with
        | some (n, rest) => some (JsonVal.num (n : Int), rest)
        | none => none
      else none

/-- Read the members of a JSON object after the opening brace. -/
def parseMembers : Nat → List Char → Option (List (String × JsonVal) × List Char)
  | 0, _ => none
  | fuel + 1, cs =>
    match skipWs cs with
    | '"' :: cs1 =>
      match parseStrChars (cs1.length + 1) cs1 with
      | some (key, rest) =>
        match skipWs rest with
        | ':' :: rest2 =>
          match parseVal fuel rest2 with
          | some (v, rest3) =>
            match skipWs rest3 with
            | ',' :: rest4 =>
              match parseMembers fuel rest4 with
              | some (kvs, rest5) => some ((String.mk key, v) :: kvs, rest5)
              | none => none
            | _ => some ([(String.mk key, v)], rest3)
          | none => none
        | _ => none
      | none => none
    | _ => none

/-- Read the elements of a JSON array after the opening bracket. -/
def parseElems : Nat → List Char → Option (List JsonVal × List Char)
  | 0, _ => none
  | fuel + 1, cs =>
    match parseVal fuel cs with
    | some (v, rest) =>
      match skipWs rest with
      | ',' :: rest2 =>
        match parseElems fuel rest2 with
        | some (vs, rest3) => some (v :: vs, rest3)
        | none => none
      | _ => some ([v], rest)
    | none => none

end

/-- Model of Python `json.loads`: `some v` when the whole input is one JSON
value, `none` when decoding raises `json.JSONDecodeError`. -/
def json_loads (s : String) : Option JsonVal :=
  match parseVal (s.length + 1) s.data with
  | some (v, rest) => if (skipWs rest).isEmpty then some v else none
  | none => none

/-- Model of Python `dict.get(key)` on a decoded JSON object: with duplicate
keys the later binding wins, as in a Python `dict` built by `json.loads`. -/
def dictGet (data : List (String × JsonVal)) (key : String) : Option JsonVal :=
  data.foldl (fun acc kv => if kv.1 = key then some kv.2 else acc) none

/-- Model of Python `key in dict`. -/
def dictContains (data : List (String × JsonVal)) (key : String) : Bool :=
  (dictGet data key).isSome

mutual

/-- Python `repr` of a decoded JSON value (strings single-quoted). -/
def pyRepr : JsonVal → String
  | JsonVal.str s => "\x27" ++ s ++ "\x27"
  | JsonVal.num n => toString n
  | JsonVal.bool b => cond b "True" "False"
  | JsonVal.null => "None"
  | JsonVal.arr vs => "[" ++ pyReprList vs ++ "]"
  | JsonVal.obj kvs => "\x7b" ++ pyReprMembers kvs ++ "\x7d"

/-- Comma-separated `repr` of a list of JSON values. -/
def pyReprList : List JsonVal → String
  | [] => ""
  | [v] => pyRepr v
  | v :: vs => pyRepr v ++ ", " ++ pyReprList vs

/-- Comma-separated `repr` of the members of a JSON object. -/
def pyReprMembers : List (String × JsonVal) → String
  | [] => ""
  | [(k, v)] => "\x27" ++ k ++ "\x27: " ++ pyRepr v
  | (k, v) :: kvs => "\x27" ++ k ++ "\x27: " ++ pyRepr v ++ ", " ++ pyReprMembers kvs

end

/-- Python `str()` of a decoded JSON value: identity on strings, `repr`
otherwise (exact for the integers and strings the gateway emits). -/
def pyStr : JsonVal → String
  | JsonVal.str s => s
  | v => pyRepr v

/-- Model of Python `str.strip()`: drop leading and trailing whitespace. -/
def pyStrip (s : String) : String :=
  String.mk (((s.data.dropWhile Char.isWhitespace).reverse.dropWhile Char.isWhitespace).reverse)

/-- Boolean prefix test on character lists. -/
def hasPrefixChars : List Char → List Char → Bool
  | [], _ => true
  | _ :: _, [] => false
  | a :: as, b :: bs => a == b && hasPrefixChars as bs

/-- Model of Python `s.startswith(p)`. -/
def pyStartsWith (s p : String) : Bool :=
  hasPrefixChars p.data s.data

/-- All characters are decimal digits. -/
def allDigits : List Char → Bool
  | [] => true
  | c :: cs => c.isDigit && allDigits cs

/-- Model of Python `str.isdigit()` on ASCII text: nonempty and all digits. -/
def pyIsDigit (s : String) : Bool :=
  !s.data.isEmpty && allDigits s.data

/-- Model of `phone.replace(" ", "").replace("-", "")`: removing every
occurrence of a single character equals filtering it out. -/
def removeSpacesDashes (s : String) : String :=
  String.mk (s.data.filter (fun c => !(c == ' ') && !(c == '-')))

/-- Substring test on character lists. -/
def containsSubChars (sub : List Char) : List Char → Bool
  | [] => sub.isEmpty
  | c :: cs => hasPrefixChars sub (c :: cs) || containsSubChars sub cs

/-- Substring test (used only to state properties about details). -/
def containsSub (s sub : String) : Bool :=
  containsSubChars sub.data s.data

/-- The KudiSMS response-code table (lines 44-62 of the source). -/
def RESPONSE_CODES : List (String × String) := [
  ("000", "✅ Success - Message received successfully"),
  ("009", "⚠️  Warning - Maximum 6 pages of SMS allowed"),
  ("100", "❌ Error - Invalid token provided"),
  ("101", "❌ Error - Account deactivated, contact admin"),
  ("103", "❌ Error - Gateway doesn't exist"),
  ("104", "❌ Error - Blocked message keyword(s)"),
  ("105", "❌ Error - Sender ID has been blocked"),
  ("106", "❌ Error - Sender ID doesn't exist"),
  ("107", "❌ Error - Invalid phone number"),
  ("108", "❌ Error - Too many recipients (max 100 per batch)"),
  ("109", "❌ Error - Insufficient credit balance"),
  ("111", "❌ Error - Only approved promotional sender ID allowed"),
  ("114", "❌ Error - No package attached to service"),
  ("187", "❌ Error - Request could not be processed"),
  ("188", "❌ Error - Sender ID is unapproved"),
  ("300", "❌ Error - Missing required parameters"),
  ("401", "❌ Error - Request could not be completed")
]

/-- `data.get(k, "N/A")` rendered through `str()` (for count and price). -/
def pyStrOrNA (o : Option JsonVal) : String :=
  match o with
  | some v => pyStr v
  | none => "N/A"

/-- `errno = data.get("errno", "unknown")` rendered through `str()`. -/
def errnoOf (o : Option JsonVal) : String :=
  match o with
  | some v => pyStr v
  | none => "unknown"

/-- `RESPONSE_CODES.get(errno, f"Unknown error code: <errno>")`: the table has
string keys, so only a string errno can hit it; a missing errno defaults to
the string `"unknown"`, which is absent from the table. -/
def codeDescOf (o : Option JsonVal) : String :=
  match o with
  | some (JsonVal.str s) => (RESPONSE_CODES.lookup s).getD ("Unknown error code: " ++ s)
  | some v => "Unknown error code: " ++ pyStr v
  | none => (RESPONSE_CODES.lookup "unknown").getD "Unknown error code: unknown"

/-- `error_msg = data.get("error", "Unknown error")` rendered through `str()`. -/
def errorMsgOf (o : Option JsonVal) : String :=
  match o with
  | some v => pyStr v
  | none => "Unknown error"

/-- Python `data.get("status") == "OK"`: true exactly when the field holds the
string `"OK"`. -/
def isStatusOK (o : Option JsonVal) : Bool :=
  match o with
  | some (JsonVal.str s) => s == "OK"
  | _ => false

/-- Lines 83-94 of `parse_response`: the two checks made on a decoded JSON
object; `none` when neither fires (control falls through in the source). -/
def parse_json_body (data : List (String × JsonVal)) : Option (Bool × String × String) :=
  if isStatusOK (dictGet data "status") then
    some (true,
      "Message sent successfully! Recipients: " ++ pyStrOrNA (dictGet data "count")
        ++ ", Cost: " ++ pyStrOrNA (dictGet data "price") ++ " units",
      "000")
  else if dictContains data "error" then
    some (false,
      codeDescOf (dictGet data "errno") ++ " - " ++ errorMsgOf (dictGet data "error"),
      errnoOf (dictGet data "errno"))
  else
    none

/-- Lines 77-97 of `parse_response`: attempt the JSON route; `none` whenever
the body does not start with a brace, decoding raises, or the decoded object
matches neither check. -/
def jsonAttempt (t : String) : Option (Bool × String × String) :=
  if pyStartsWith t "\x7b" then
    match json_loads t with
    | some (JsonVal.obj data) => parse_json_body data
    | _ => none
  else none

/-- Lines 99-107 of `parse_response`: the plain-text route. -/
def plainOutcome (t : String) : Bool × String × String :=
  if pyIsDigit t then
    (t == "000", (RESPONSE_CODES.lookup t).getD ("Unknown response code: " ++ t), t)
  else
    (false, "Unexpected API response: " ++ t, "unknown")

/-- `parse_response(response_text)` (lines 65-107): returns
`(success, message, code)`. -/
def parse_response (response_text : String) : Bool × String × String :=
  let t := pyStrip response_text
  match jsonAttempt t with
  | some r => r
  | none => plainOutcome t

example : parse_response "000" = (true, "✅ Success - Message received successfully", "000") := by
  decide

example : parse_response "OK" = (false, "Unexpected API response: OK", "unknown") := by
  decide

example :
    json_loads "\x7b\"status\":\"OK\",\"count\":1,\"price\":2\x7d"
      = some (JsonVal.obj
          [("status", JsonVal.str "OK"), ("count", JsonVal.num 1), ("price", JsonVal.num 2)]) := by
  rfl

example :
    parse_response "\x7b\"status\":\"OK\",\"count\":1,\"price\":2\x7d"
      = (true, "Message sent successfully! Recipients: 1, Cost: 2 units", "000") := by
  decide

example :
    parse_response "\x7b\"error\":\"Invalid token\",\"errno\":\"100\"\x7d"
      = (false, "❌ Error - Invalid token provided - Invalid token", "100") := by
  decide

/-- The raw HTTP response seen by `send_single`: `resp.status_code` and
`resp.text` of the `requests` response object. -/
structure RawResponse : Type where
  status_code : Nat
  text : String
deriving DecidableEq

/-- Result of the injected transport call `requests.post(...)` inside
`send_single`: either a response, or one of the exception classes the source
catches (lines 142-147). -/
inductive RequestOutcome : Type where
  | ok : RawResponse → RequestOutcome
  | timeout : RequestOutcome
  | connectionError : String → RequestOutcome
  | otherError : String → RequestOutcome
deriving DecidableEq

/-- `send_single(phone, message)` (lines 110-147), with the transport result
injected: check the HTTP status, else parse the body; exceptions from the
transport are converted to error triples. -/
def send_single (post : RequestOutcome) : Bool × String × String :=
  match post with
  | RequestOutcome.ok resp =>
    if resp.status_code ≠ 200 then
      (false, "HTTP " ++ toString resp.status_code ++ ": " ++ resp.text,
        "HTTP_" ++ toString resp.status_code)
    else
      parse_response resp.text
  | RequestOutcome.timeout => (false, "Request timeout after 30 seconds", "TIMEOUT")
  | RequestOutcome.connectionError e => (false, "Connection error: " ++ e, "CONN_ERROR")
  | RequestOutcome.otherError e => (false, "Unexpected error: " ++ e, "EXCEPTION")

/-- True when the transport failed to produce any `RawResponse` (an exception
was raised by `requests.post`). -/
def isTransportFailure : RequestOutcome → Bool
  | RequestOutcome.ok _ => false
  | _ => true

/-- One line of the delivery log of `main`: the recipient together with the
`(success, status_msg, code)` triple returned by `send_single`. -/
structure ReportEntry : Type where
  phone : String
  success : Bool
  message : String
  code : String
deriving DecidableEq

/-- Default entry used with `List.getD` in statements. -/
def dummyEntry : ReportEntry := ReportEntry.mk "" true "" ""

/-- The report entry `main` produces for one recipient, given the injected
transport. -/
def mkEntry (transport : String → RequestOutcome) (phone : String) : ReportEntry :=
  let res := send_single (transport phone)
  ReportEntry.mk phone res.1 res.2.1 res.2.2

/-- The delivery loop of `main` (lines 230-249): walk the validated recipient
list in order, send to each, and tally `success_count` and `failed_count`.
Returns (report, success_count, failed_count). -/
def sendLoop (transport : String → RequestOutcome) :
    List String → List ReportEntry × Nat × Nat
  | [] => ([], 0, 0)
  | phone :: rest =>
    let entry := mkEntry transport phone
    let prev := sendLoop transport rest
    (entry :: prev.1,
      if entry.success then prev.2.1 + 1 else prev.2.1,
      if entry.success then prev.2.2 else prev.2.2 + 1)

/-- `validate_phone_number(phone)` (lines 150-170): returns
`(is_valid, normalized-or-reason)`. -/
def validate_phone_number (phone : String) : Bool × String :=
  let p := pyStrip phone
  if p = "" then
    (false, "Empty phone number")
  else
    let pc := removeSpacesDashes p
    if !(pyStartsWith pc "+") && !(pyIsDigit pc) then
      (false, "Invalid format: " ++ p)
    else if pyStartsWith pc "0" && (pc.length == 11) then
      (true, "+234" ++ String.mk (pc.data.drop 1))
    else if pyStartsWith pc "234" && !(pyStartsWith pc "+") then
      (true, "+" ++ pc)
    else
      (true, pc)

example : validate_phone_number "0803 123-4567" = (true, "+2348031234567") := by decide

example : validate_phone_number "2348031234567" = (true, "+2348031234567") := by decide

example : validate_phone_number "+2348031234567" = (true, "+2348031234567") := by decide

/-- Transport used to exercise the batch loop on a concrete run: the middle
recipient times out, the others get a clean gateway response. -/
def w8transport : String → RequestOutcome := fun p =>
  if p = "B" then RequestOutcome.timeout
  else RequestOutcome.ok (RawResponse.mk 200 "000")

/-- Destructing a successful prefix test: the subject starts with the head
character of the pattern and the tails are again in the prefix relation. -/
theorem pyStartsWith_head (t p : String) (c : Char) (cs : List Char)
    (hp : p.data = c :: cs) (h : pyStartsWith t p = true) :
    ∃ l, t.data = c :: l ∧ hasPrefixChars cs l = true := by
  unfold pyStartsWith at h
  rw [hp] at h
  cases ht : t.data with
  | nil => rw [ht] at h; simp [hasPrefixChars] at h
  | cons b bs =>
    rw [ht] at h
    simp only [hasPrefixChars, Bool.and_eq_true, beq_iff_eq] at h
    obtain ⟨hcb, h2⟩ := h
    subst hcb
    exact ⟨bs, rfl, h2⟩

/-- A body whose trimmed text is all digits cannot start with a brace. -/
theorem brace_false_of_digit (t : String) (h : pyIsDigit t = true) :
    pyStartsWith t "\x7b" = false := by
  cases hb : pyStartsWith t "\x7b" with
  | false => rfl
  | true =>
    obtain ⟨l, hl, _⟩ := pyStartsWith_head t "\x7b" '\x7b' [] rfl hb
    unfold pyIsDigit at h
    rw [hl] at h
    simp only [List.isEmpty_cons, Bool.not_false, Bool.true_and, allDigits,
      Bool.and_eq_true] at h
    exact absurd h.1 (by decide)

/-- The JSON route yields nothing when the body does not start with a brace. -/
theorem jsonAttempt_none_of_not_brace (t : String) (h : pyStartsWith t "\x7b" = false) :
    jsonAttempt t = none := by
  simp [jsonAttempt, h]

/-- The JSON route yields nothing when decoding fails. -/
theorem jsonAttempt_none_of_decode_fail (t : String) (h : json_loads t = none) :
    jsonAttempt t = none := by
  unfold jsonAttempt
  split
  · rw [h]
  · rfl

/-- When the JSON route yields nothing, `parse_response` takes the plain-text
route. -/
theorem parse_response_plain (s : String) (h : jsonAttempt (pyStrip s) = none) :
    parse_response s = plainOutcome (pyStrip s) := by
  simp only [parse_response]
  rw [h]

/-- On a decoded object, `parse_response` is the object checks with the
plain-text route as fallback. -/
theorem parse_response_json (s : String) (data : List (String × JsonVal))
    (hbrace : pyStartsWith (pyStrip s) "\x7b" = true)
    (hdec : json_loads (pyStrip s) = some (JsonVal.obj data)) :
    parse_response s = (parse_json_body data).getD (plainOutcome (pyStrip s)) := by
  simp only [parse_response, jsonAttempt, hbrace, if_true, hdec]
  cases parse_json_body data <;> rfl

/-- The success check of the decoded-object route. -/
theorem parse_json_body_ok (data : List (String × JsonVal))
    (hok : isStatusOK (dictGet data "status") = true) :
    parse_json_body data = some (true,
      "Message sent successfully! Recipients: " ++ pyStrOrNA (dictGet data "count")
        ++ ", Cost: " ++ pyStrOrNA (dictGet data "price") ++ " units",
      "000") := by
  simp [parse_json_body, hok]

/-- The error check of the decoded-object route. -/
theorem parse_json_body_error (data : List (String × JsonVal))
    (hok : isStatusOK (dictGet data "status") = false)
    (herr : dictContains data "error" = true) :
    parse_json_body data = some (false,
      codeDescOf (dictGet data "errno") ++ " - " ++ errorMsgOf (dictGet data "error"),
      errnoOf (dictGet data "errno")) := by
  simp [parse_json_body, hok, herr]

/-- A trimmed body whose head character is neither a brace nor a digit takes
the unknown-response branch. -/
theorem plain_unknown_of_head (s : String) (c : Char) (l : List Char)
    (hdata : (pyStrip s).data = c :: l)
    (hc1 : ('\x7b' == c) = false) (hc2 : c.isDigit = false) :
    parse_response s = (false, "Unexpected API response: " ++ pyStrip s, "unknown") := by
  have hbrace : pyStartsWith (pyStrip s) "\x7b" = false := by
    unfold pyStartsWith
    rw [show ("\x7b" : String).data = ['\x7b'] from rfl, hdata]
    simp [hasPrefixChars, hc1]
  have hdig : pyIsDigit (pyStrip s) = false := by
    unfold pyIsDigit
    rw [hdata]
    simp [allDigits, hc2]
  rw [parse_response_plain s (jsonAttempt_none_of_not_brace _ hbrace)]
  simp [plainOutcome, hdig]

/-- The report built by the loop is the entry for each recipient, in order. -/
theorem sendLoop_report (transport : String → RequestOutcome) (rs : List String) :
    (sendLoop transport rs).1 = rs.map (mkEntry transport) := by
  induction rs with
  | nil => rfl
  | cons a l ih => simp [sendLoop, ih]

/-- Indexing the mapped report inside its length hits the recipient's entry. -/
theorem getD_map_mkEntry (transport : String → RequestOutcome) (rs : List String)
    (j : Nat) (h : j < rs.length) :
    (rs.map (mkEntry transport)).getD j dummyEntry = mkEntry transport (rs.getD j "") := by
  induction rs generalizing j with
  | nil => simp at h
  | cons a l ih =>
    cases j with
    | zero => rfl
    | succ j =>
      simp only [List.map_cons, List.getD_cons_succ]
      exact ih j (by simpa using h)

/-- The phone recorded at any index of the report is the recipient at that
index (with matching defaults outside the range). -/
theorem getD_map_phone (transport : String → RequestOutcome) (rs : List String) (j : Nat) :
    ((rs.map (mkEntry transport)).getD j dummyEntry).phone = rs.getD j "" := by
  induction rs generalizing j with
  | nil => cases j <;> rfl
  | cons a l ih =>
    cases j with
    | zero => rfl
    | succ j => simpa [List.getD_cons_succ] using ih j

/-- Claim C1: with HTTP status 200, any decoding failure on a brace-initial
body is absorbed: `parse_response` never propagates an exception and instead
returns the Failure triple of the unknown-response branch, so resolution is
total over all string bodies. -/
theorem claim_C1 (s : String)
    (hbrace : pyStartsWith (pyStrip s) "\x7b" = true)
    (hdec : json_loads (pyStrip s) = none) :
    parse_response s = (false, "Unexpected API response: " ++ pyStrip s, "unknown") := by
  have h1 : jsonAttempt (pyStrip s) = none := jsonAttempt_none_of_decode_fail _ hdec
  obtain ⟨l, hl, _⟩ := pyStartsWith_head (pyStrip s) "\x7b" '\x7b' [] rfl hbrace
  have hdig : pyIsDigit (pyStrip s) = false := by
    unfold pyIsDigit
    rw [hl]
    simp only [allDigits, show ('\x7b'.isDigit) = false from rfl, Bool.false_and,
      Bool.and_false]
  rw [parse_response_plain s h1]
  simp [plainOutcome, hdig]

/-- Witness for C1 at a malformed brace-initial body. -/
theorem claim_C1_w :
    parse_response "\x7bnot json" = (false, "Unexpected API response: \x7bnot json", "unknown") := by
  have h := claim_C1 "\x7bnot json" (by decide) (by rfl)
  exact h.trans (by decide)

/-- Claim C2: a raw response whose HTTP status is outside the 2xx range is
resolved to the transport-error triple built only from the status and body,
whatever the body holds; the body parser is not consulted. -/
theorem claim_C2 (resp : RawResponse)
    (h : resp.status_code < 200 ∨ 300 ≤ resp.status_code) :
    send_single (RequestOutcome.ok resp) =
      (false, "HTTP " ++ toString resp.status_code ++ ": " ++ resp.text,
        "HTTP_" ++ toString resp.status_code) := by
  have hne : resp.status_code ≠ 200 := by omega
  simp [send_single, hne]

/-- Witness for C2 at status 503. -/
theorem claim_C2_w :
    send_single (RequestOutcome.ok (RawResponse.mk 503 "Service Unavailable")) =
      (false, "HTTP 503: Service Unavailable", "HTTP_503") := by
  have h := claim_C2 (RawResponse.mk 503 "Service Unavailable") (by decide)
  exact h.trans (by decide)

/-- Claim C5: a decoded JSON object whose status field is the string OK is
resolved to Success with canonical code 000 and a detail built from the count
and price fields. -/
theorem claim_C5 (s : String) (data : List (String × JsonVal))
    (hbrace : pyStartsWith (pyStrip s) "\x7b" = true)
    (hdec : json_loads (pyStrip s) = some (JsonVal.obj data))
    (hok : dictGet data "status" = some (JsonVal.str "OK")) :
    parse_response s =
      (true, "Message sent successfully! Recipients: " ++ pyStrOrNA (dictGet data "count")
        ++ ", Cost: " ++ pyStrOrNA (dictGet data "price") ++ " units", "000") := by
  have hsok : isStatusOK (dictGet data "status") = true := by rw [hok]; rfl
  rw [parse_response_json s data hbrace hdec, parse_json_body_ok data hsok]
  rfl

/-- Witness for C5 at the spec scenario body. -/
theorem claim_C5_w :
    parse_response "\x7b\"status\":\"OK\",\"count\":1,\"price\":2\x7d"
      = (true, "Message sent successfully! Recipients: 1, Cost: 2 units", "000") := by
  have h := claim_C5 "\x7b\"status\":\"OK\",\"count\":1,\"price\":2\x7d"
    [("status", JsonVal.str "OK"), ("count", JsonVal.num 1), ("price", JsonVal.num 2)]
    (by decide) (by rfl) (by rfl)
  exact h.trans (by decide)

/-- Claim C9: when a decoded object carries both a status field equal to OK
and an error field, the success check wins: Success with code 000, the error
indicator is ignored. -/
theorem claim_C9 (s : String) (data : List (String × JsonVal)) (ev : JsonVal)
    (hbrace : pyStartsWith (pyStrip s) "\x7b" = true)
    (hdec : json_loads (pyStrip s) = some (JsonVal.obj data))
    (hok : dictGet data "status" = some (JsonVal.str "OK"))
    (_herr : dictGet data "error" = some ev) :
    (parse_response s).1 = true ∧ (parse_response s).2.2 = "000" := by
  have hsok : isStatusOK (dictGet data "status") = true := by rw [hok]; rfl
  rw [parse_response_json s data hbrace hdec, parse_json_body_ok data hsok]
  exact ⟨rfl, rfl⟩

/-- Witness for C9 at a body carrying both fields. -/
theorem claim_C9_w :
    (parse_response "\x7b\"status\":\"OK\",\"error\":\"ignored\"\x7d").1 = true ∧
      (parse_response "\x7b\"status\":\"OK\",\"error\":\"ignored\"\x7d").2.2 = "000" :=
  claim_C9 "\x7b\"status\":\"OK\",\"error\":\"ignored\"\x7d"
    [("status", JsonVal.str "OK"), ("error", JsonVal.str "ignored")]
    (JsonVal.str "ignored") (by decide) (by rfl) (by rfl) (by rfl)

/-- Counterexample to C3 as stated: for an errno absent from the table the
detail's fallback text is "Unknown error code: <code>", not the claimed
"Unknown response code: <code>" (that text belongs to the numeric branch). -/
theorem claim_C3_cex :
    parse_response "\x7b\"error\":\"boom\",\"errno\":\"999\"\x7d"
        = (false, "Unknown error code: 999 - boom", "999") ∧
      containsSub (parse_response "\x7b\"error\":\"boom\",\"errno\":\"999\"\x7d").2.1
        "Unknown response code" = false := by
  decide

/-- Claim C3 (amended): a decoded JSON object whose status is not OK and that
carries an error field resolves to Failure; the code is the errno if present
else "unknown", and the detail is the table lookup of that code — falling back
to "Unknown error code: <code>" when absent — followed by " - " and the error
message. -/
theorem claim_C3_amended (s : String) (data : List (String × JsonVal)) (ev : JsonVal)
    (hbrace : pyStartsWith (pyStrip s) "\x7b" = true)
    (hdec : json_loads (pyStrip s) = some (JsonVal.obj data))
    (hst : isStatusOK (dictGet data "status") = false)
    (hmsg : dictGet data "error" = some ev) :
    (∀ en : String, dictGet data "errno" = some (JsonVal.str en) →
      parse_response s =
        (false, ((RESPONSE_CODES.lookup en).getD ("Unknown error code: " ++ en))
          ++ " - " ++ pyStr ev, en)) ∧
    (dictGet data "errno" = none →
      parse_response s =
        (false, "Unknown error code: unknown" ++ " - " ++ pyStr ev, "unknown")) := by
  have herr : dictContains data "error" = true := by
    unfold dictContains
    rw [hmsg]
    rfl
  have hpr := parse_response_json s data hbrace hdec
  have hb := parse_json_body_error data hst herr
  constructor
  · intro en hen
    rw [hpr, hb]
    rw [hen, hmsg]
    rfl
  · intro hen
    rw [hpr, hb]
    rw [hen, hmsg]
    rfl

/-- Witness for the amended C3 at the spec scenario body: Failure, code 100,
detail referencing the table text "Invalid token provided". -/
theorem claim_C3_w :
    parse_response "\x7b\"error\":\"Invalid token\",\"errno\":\"100\"\x7d"
        = (false, "❌ Error - Invalid token provided - Invalid token", "100") ∧
      containsSub "❌ Error - Invalid token provided - Invalid token"
        "Invalid token provided" = true := by
  constructor
  · have h := (claim_C3_amended "\x7b\"error\":\"Invalid token\",\"errno\":\"100\"\x7d"
      [("error", JsonVal.str "Invalid token"), ("errno", JsonVal.str "100")]
      (JsonVal.str "Invalid token") (by decide) (by rfl) (by rfl) (by rfl)).1 "100" (by rfl)
    exact h.trans (by decide)
  · decide

/-- Counterexample to C4 as stated: the body "OK" (status 200) is resolved to
Failure with code "unknown", not to Success — there is no free-text success
branch in `parse_response`. -/
theorem claim_C4_cex :
    (parse_response "OK").1 = false ∧
      parse_response "OK" = (false, "Unexpected API response: OK", "unknown") := by
  decide

/-- Claim C4 (amended): a body whose trimmed text starts with the success
marker token "OK" (in any letter case, hence neither JSON nor numeric) is
resolved to Failure with code "unknown" and detail "Unexpected API response:
<body>"; no free-text success branch exists. -/
theorem claim_C4_amended (s : String)
    (h : pyStartsWith (pyStrip s) "OK" = true ∨ pyStartsWith (pyStrip s) "Ok" = true ∨
      pyStartsWith (pyStrip s) "oK" = true ∨ pyStartsWith (pyStrip s) "ok" = true) :
    parse_response s = (false, "Unexpected API response: " ++ pyStrip s, "unknown") := by
  rcases h with h | h | h | h
  · obtain ⟨l, hl, _⟩ := pyStartsWith_head (pyStrip s) "OK" 'O' ['K'] rfl h
    exact plain_unknown_of_head s 'O' l hl (by decide) (by decide)
  · obtain ⟨l, hl, _⟩ := pyStartsWith_head (pyStrip s) "Ok" 'O' ['k'] rfl h
    exact plain_unknown_of_head s 'O' l hl (by decide) (by decide)
  · obtain ⟨l, hl, _⟩ := pyStartsWith_head (pyStrip s) "oK" 'o' ['K'] rfl h
    exact plain_unknown_of_head s 'o' l hl (by decide) (by decide)
  · obtain ⟨l, hl, _⟩ := pyStartsWith_head (pyStrip s) "ok" 'o' ['k'] rfl h
    exact plain_unknown_of_head s 'o' l hl (by decide) (by decide)

/-- Witness for the amended C4 at the lower-case marker body. -/
theorem claim_C4_w :
    parse_response "ok" = (false, "Unexpected API response: ok", "unknown") := by
  have h := claim_C4_amended "ok" (Or.inr (Or.inr (Or.inr (by decide))))
  exact h.trans (by decide)

/-- Claim C6: a non-JSON trimmed body that is entirely numeric is treated as a
gateway code — detail from the table with the "Unknown response code: <code>"
fallback, Success exactly when the code is "000" — and every other
unrecognized body yields Failure with code "unknown". -/
theorem claim_C6 (s : String) :
    (pyIsDigit (pyStrip s) = true →
      parse_response s =
        ((pyStrip s) == "000",
          (RESPONSE_CODES.lookup (pyStrip s)).getD ("Unknown response code: " ++ pyStrip s),
          pyStrip s)) ∧
    (pyStartsWith (pyStrip s) "\x7b" = false → pyIsDigit (pyStrip s) = false →
      parse_response s = (false, "Unexpected API response: " ++ pyStrip s, "unknown")) := by
  constructor
  · intro hd
    have hbr := brace_false_of_digit (pyStrip s) hd
    rw [parse_response_plain s (jsonAttempt_none_of_not_brace _ hbr)]
    simp [plainOutcome, hd]
  · intro hbr hd
    rw [parse_response_plain s (jsonAttempt_none_of_not_brace _ hbr)]
    simp [plainOutcome, hd]

/-- Witness for C6 at the two spec scenarios: a numeric code body and an
arbitrary text body. -/
theorem claim_C6_w :
    parse_response "000" = (true, "✅ Success - Message received successfully", "000") ∧
      parse_response "Some random text"
        = (false, "Unexpected API response: Some random text", "unknown") := by
  constructor
  · have h := (claim_C6 "000").1 (by decide)
    exact h.trans (by decide)
  · have h := (claim_C6 "Some random text").2 (by decide) (by decide)
    exact h.trans (by decide)

/-- Claim C7: the batch loop processes each recipient exactly once in input
order — the report has exactly one entry per recipient, in order — and the
two tallies add up to the number of recipients. -/
theorem claim_C7 (transport : String → RequestOutcome) (recipients : List String) :
    (sendLoop transport recipients).1.length = recipients.length ∧
    (sendLoop transport recipients).1.map ReportEntry.phone = recipients ∧
    (sendLoop transport recipients).2.1 + (sendLoop transport recipients).2.2
      = recipients.length := by
  induction recipients with
  | nil => exact ⟨rfl, rfl, rfl⟩
  | cons phone rest ih =>
    obtain ⟨ih1, ih2, ih3⟩ := ih
    refine ⟨?_, ?_, ?_⟩
    · simp [sendLoop, ih1]
    · simp [sendLoop, ih2, mkEntry]
    · simp only [sendLoop, List.length_cons]
      cases h : (mkEntry transport phone).success <;> simp [h] <;> omega

/-- Claim C8: if the transport fails (raises) for the recipient at position i,
the loop synthesizes a transport-error outcome for it (one of the three
exception codes, marked unsuccessful) and still produces an entry for every
recipient in order — the batch never stops early and never raises. -/
theorem claim_C8 (transport : String → RequestOutcome) (recipients : List String)
    (i : Nat) (hi : i < recipients.length)
    (hfail : isTransportFailure (transport (recipients.getD i "")) = true) :
    (sendLoop transport recipients).1.length = recipients.length ∧
    ((sendLoop transport recipients).1.getD i dummyEntry).success = false ∧
    (((sendLoop transport recipients).1.getD i dummyEntry).code = "TIMEOUT" ∨
      ((sendLoop transport recipients).1.getD i dummyEntry).code = "CONN_ERROR" ∨
      ((sendLoop transport recipients).1.getD i dummyEntry).code = "EXCEPTION") ∧
    (∀ j : Nat, ((sendLoop transport recipients).1.getD j dummyEntry).phone
      = recipients.getD j "") := by
  have key : (mkEntry transport (recipients.getD i "")).success = false ∧
      ((mkEntry transport (recipients.getD i "")).code = "TIMEOUT" ∨
        (mkEntry transport (recipients.getD i "")).code = "CONN_ERROR" ∨
        (mkEntry transport (recipients.getD i "")).code = "EXCEPTION") := by
    cases htr : transport (recipients.getD i "") with
    | ok r =>
      rw [htr] at hfail
      simp [isTransportFailure] at hfail
    | timeout =>
      have hm : mkEntry transport (recipients.getD i "") = ReportEntry.mk
          (recipients.getD i "") false "Request timeout after 30 seconds" "TIMEOUT" := by
        unfold mkEntry
        rw [htr]
        rfl
      rw [hm]
      exact ⟨rfl, Or.inl rfl⟩
    | connectionError e =>
      have hm : mkEntry transport (recipients.getD i "") = ReportEntry.mk
          (recipients.getD i "") false ("Connection error: " ++ e) "CONN_ERROR" := by
        unfold mkEntry
        rw [htr]
        rfl
      rw [hm]
      exact ⟨rfl, Or.inr (Or.inl rfl)⟩
    | otherError e =>
      have hm : mkEntry transport (recipients.getD i "") = ReportEntry.mk
          (recipients.getD i "") false ("Unexpected error: " ++ e) "EXCEPTION" := by
        unfold mkEntry
        rw [htr]
        rfl
      rw [hm]
      exact ⟨rfl, Or.inr (Or.inr rfl)⟩
  rw [sendLoop_report]
  refine ⟨by simp, ?_, ?_, fun j => getD_map_phone transport recipients j⟩
  · rw [getD_map_mkEntry transport recipients i hi]
    exact key.1
  · rw [getD_map_mkEntry transport recipients i hi]
    exact key.2

/-- Witness for C8 on a concrete three-recipient run whose middle send times
out: the batch still reports all three, B is tagged with the timeout code, A
and C resolve normally. -/
theorem claim_C8_w :
    (sendLoop w8transport ["A", "B", "C"]).1.length = 3 ∧
      ((sendLoop w8transport ["A", "B", "C"]).1.getD 1 dummyEntry).success = false ∧
      ((sendLoop w8transport ["A", "B", "C"]).1.getD 1 dummyEntry).code = "TIMEOUT" ∧
      ((sendLoop w8transport ["A", "B", "C"]).1.getD 0 dummyEntry).success = true ∧
      ((sendLoop w8transport ["A", "B", "C"]).1.getD 2 dummyEntry).success = true := by
  have h := claim_C8 w8transport ["A", "B", "C"] 1 (by decide) (by decide)
  exact ⟨h.1, h.2.1, by decide, by decide, by decide⟩

/-- Claim C10: an input that cleans (strip, drop spaces and dashes) to exactly
11 digits starting with "0" is accepted and normalized to "+234" followed by
the last 10 digits; an input that cleans to digits starting with "234" is
accepted and normalized by prefixing "+". -/
theorem claim_C10 (phone : String) :
    (pyIsDigit (removeSpacesDashes (pyStrip phone)) = true →
      pyStartsWith (removeSpacesDashes (pyStrip phone)) "0" = true →
      (removeSpacesDashes (pyStrip phone)).length = 11 →
      validate_phone_number phone
        = (true, "+234" ++ String.mk ((removeSpacesDashes (pyStrip phone)).data.drop 1))) ∧
    (pyIsDigit (removeSpacesDashes (pyStrip phone)) = true →
      pyStartsWith (removeSpacesDashes (pyStrip phone)) "234" = true →
      validate_phone_number phone = (true, "+" ++ removeSpacesDashes (pyStrip phone))) := by
  constructor
  · intro hd h0 hlen
    have hp : ¬ pyStrip phone = "" := by
      intro hp
      rw [hp] at hd
      exact absurd hd (by decide)
    have hfmt : (!(pyStartsWith (removeSpacesDashes (pyStrip phone)) "+")
        && !(pyIsDigit (removeSpacesDashes (pyStrip phone)))) = false := by
      rw [hd]
      simp
    simp only [validate_phone_number, if_neg hp, hfmt, Bool.false_eq_true, if_false,
      h0, hlen, beq_self_eq_true, Bool.and_self, if_true, Bool.true_and]
  · intro hd h234
    obtain ⟨l, hl, _⟩ := pyStartsWith_head (removeSpacesDashes (pyStrip phone)) "234"
      '2' ['3', '4'] rfl h234
    have hp : ¬ pyStrip phone = "" := by
      intro hp
      rw [hp] at hd
      exact absurd hd (by decide)
    have hplus : pyStartsWith (removeSpacesDashes (pyStrip phone)) "+" = false := by
      unfold pyStartsWith
      rw [show ("+" : String).data = ['+'] from rfl, hl]
      simp [hasPrefixChars]
    have h0 : pyStartsWith (removeSpacesDashes (pyStrip phone)) "0" = false := by
      unfold pyStartsWith
      rw [show ("0" : String).data = ['0'] from rfl, hl]
      simp [hasPrefixChars]
    simp [validate_phone_number, if_neg hp, hd, h0, h234, hplus]

/-- Witness for C10 on a local 11-digit number with spacing and on a
country-code-prefixed number. -/
theorem claim_C10_w :
    validate_phone_number "0803 123-4567" = (true, "+2348031234567") ∧
      validate_phone_number "2348031234567" = (true, "+2348031234567") := by
  constructor
  · have h := (claim_C10 "0803 123-4567").1 (by decide) (by decide) (by decide)
    exact h.trans (by decide)
  · have h := (claim_C10 "2348031234567").2 (by decide) (by decide)
    exact h.trans (by decide)
